import Mathlib

set_option linter.unusedVariables false

namespace QaseJs

/-- Test execution status, mirroring TestStatusEnum from the models module. -/
inductive TestStatusEnum
  | passed | failed | skipped | blocked | disabled | invalid
deriving DecidableEq, Repr

/-- One finished test result. Only the fields the facade itself reads are
modelled (title and execution status, used for the per-result log line);
the remaining TestResultType payload is opaque to the facade. -/
structure TestResultType where
  title : String
  status : TestStatusEnum
deriving DecidableEq, Repr

/-- ModeEnum from the options module: the backend selector. -/
inductive ModeEnum
  | testops | report | off
deriving DecidableEq, Repr

/-- The composed options (ConfigType and OptionsType), restricted to the
fields the core logic reads: mode, fallback and captureLogs. Any of them may
be undefined after composition, hence Option. -/
structure OptionsType where
  mode : Option ModeEnum
  fallback : Option ModeEnum
  captureLogs : Option Bool
deriving DecidableEq, Repr

/-- Modelled from the spec: the StateModel record of the Run-State Store
(state/state.ts is not among the sources; its shape is fixed by spec
section 3 and by the call sites in QaseReporter): RunId, Mode and
IsModeChanged, each possibly absent. -/
structure StateModel where
  RunId : Option Nat
  Mode : Option ModeEnum
  IsModeChanged : Option Bool
deriving DecidableEq, Repr

/-- Modelled from the spec: the persisted Run-State Store holds at most one
record per logical run (spec section 4.4). -/
structure Store where
  record : Option StateModel
deriving DecidableEq, Repr

namespace StateManager

/-- Modelled from the spec: isStateExists answers whether a record exists. -/
def isStateExists (st : Store) : Bool := st.record.isSome

/-- Modelled from the spec: setMode is a partial read-modify-write update
that sets Mode, sets IsModeChanged to true and leaves RunId untouched; on a
missing record it creates one with no RunId. The facade passes the value of
an `as ModeEnum` cast that may be undefined at runtime, hence Option. -/
def setMode (m : Option ModeEnum) (st : Store) : Store :=
  match st.record with
  | some s => ⟨some { s with Mode := m, IsModeChanged := some true }⟩
  | none => ⟨some ⟨none, m, some true⟩⟩

/-- Modelled from the spec: clearState deletes the record. -/
def clearState (st : Store) : Store := ⟨none⟩

/-- Modelled from the spec: setState is a full overwrite of the record. -/
def setState (s : StateModel) (st : Store) : Store := ⟨some s⟩

end StateManager

/-- Modelled from the spec: a concrete backend reporter behind
InternalReporterInterface is, as far as the facade can observe it, its
buffered result list (spec sections 4.3 and 5: getTestResults returns the
buffer, setTestResults overwrites it wholesale, a successful addTestResult
appends, and the delivery operations leave the buffer as is). -/
structure Reporter where
  results : List TestResultType
deriving DecidableEq, Repr

/-- Which of the two backend roles an invocation targets. -/
inductive Target
  | upstream | fallback
deriving DecidableEq, Repr

/-- The backend operations of the InternalReporterInterface contract that
the facade invokes (reads of getTestResults are modelled as pure). -/
inductive BackendOp
  | startTestRun | addTestResult | setTestResults | sendResults | publish | complete
deriving DecidableEq, Repr

/-- Observable events of one facade operation: awaiting the pending
start-of-run handle, emitting the per-result log line, each backend
invocation together with its outcome, and each Run-State Store write. -/
inductive Ev
  | awaitOp (pending : Option Target)
  | logResult (r : TestResultType)
  | call (t : Target) (op : BackendOp) (ok : Bool)
  | storeSetMode (m : Option ModeEnum)
  | storeSetState (s : StateModel)
  | storeClear
deriving DecidableEq, Repr

/-- Whether an event is an invocation of a backend operation. -/
def Ev.isBackendCall : Ev → Bool
  | .call _ _ _ => true
  | _ => false

/-- Whether an event is a write to the Run-State Store. -/
def Ev.isStoreWrite : Ev → Bool
  | .storeSetMode _ => true
  | .storeSetState _ => true
  | .storeClear => true
  | _ => false

/-- Whether an event is a backend invocation on the given target. -/
def Ev.isCallTo (e : Ev) (t : Target) : Bool :=
  match e with
  | .call t2 _ _ => t2 = t
  | _ => false

/-- DisabledException (the explicit off signal) versus any other
construction error. -/
inductive CreateError
  | disabled | failure
deriving DecidableEq, Repr

/-- The facade state: the fields of class QaseReporter that the core logic
reads or writes. The pending start-of-run handle records which backend's
run-start it came from. -/
structure QaseReporter where
  upstreamReporter : Option Reporter
  fallbackReporter : Option Reporter
  captureLogs : Option Bool
  disabled : Bool
  useFallback : Bool
  startTestRunOperation : Option Target
  options : OptionsType
deriving DecidableEq, Repr

namespace QaseReporter

/-- createReporter, lines 472-572: mode off throws DisabledException; the
testops and report branches build a concrete backend whose
externally-caused construction failures (missing token or project, client
or writer errors) are abstracted into the oracle flag ok. A freshly built
backend starts with an empty buffer. -/
def createReporter (mode : ModeEnum) (ok : Bool) : Except CreateError Reporter :=
  match mode with
  | .off => .error .disabled
  | _ => if ok then .ok ⟨[]⟩ else .error .failure

/-- Constructor step at lines 152-161: when a record exists with a truthy
IsModeChanged and a truthy Mode, the persisted Mode overrides the
configured one (through process.env before composeOptions). The RunId
forcing on the same lines only affects the testops run id, which no core
branch reads, and is not modelled. -/
def effectiveMode (opts : OptionsType) (st : Store) : Option ModeEnum :=
  match st.record with
  | some s => if s.IsModeChanged == some true && s.Mode.isSome then s.Mode else opts.mode
  | none => opts.mode

/-- Constructor lines 193-225: fallback construction with its own
DisabledException and error handling, then the initial stamping of the
run-state record when none existed. -/
def constructTail (q : QaseReporter) (fOk : Bool) (st : Store) :
    QaseReporter × Store :=
  let q1 :=
    match createReporter (q.options.fallback.getD .off) fOk with
    | .ok r => { q with fallbackReporter := some r }
    | .error .disabled =>
        if q.useFallback then { q with disabled := true } else q
    | .error .failure =>
        if q.useFallback && q.upstreamReporter.isNone then
          { q with disabled := true }
        else q
  if StateManager.isStateExists st then (q1, st)
  else
    let mode0 := if q1.useFallback then q1.options.fallback else q1.options.mode
    let s : StateModel :=
      { RunId := none,
        Mode := if q1.disabled then some .off else mode0,
        IsModeChanged := none }
    (q1, StateManager.setState s st)

/-- The private constructor, lines 151-226: run-state mode override, primary
construction with its off and error handling (the source tests
`composedOptions.fallback != undefined` and on that branch returns early,
skipping both the fallback construction and the record stamping), then the
tail. uOk and fOk are the construction oracles of the two backends. -/
def construct (opts : OptionsType) (uOk fOk : Bool) (st : Store) :
    QaseReporter × Store :=
  let mode := effectiveMode opts st
  let composed : OptionsType := { opts with mode := mode }
  let q0 : QaseReporter :=
    { upstreamReporter := none, fallbackReporter := none,
      captureLogs := composed.captureLogs, disabled := false,
      useFallback := false, startTestRunOperation := none, options := composed }
  match createReporter (mode.getD .off) uOk with
  | .ok r => constructTail { q0 with upstreamReporter := some r } fOk st
  | .error .disabled => constructTail { q0 with disabled := true } fOk st
  | .error .failure =>
      if composed.fallback.isSome then ({ q0 with disabled := true }, st)
      else constructTail { q0 with useFallback := true } fOk st

/-- getResults, lines 228-238. -/
def getResults (q : QaseReporter) : List TestResultType :=
  if q.disabled then []
  else if q.useFallback then (q.fallbackReporter.map Reporter.results).getD []
  else (q.upstreamReporter.map Reporter.results).getD []

/-- setTestResults, lines 240-250: overwrites the buffer of the
authoritative backend through optional chaining. -/
def setTestResults (q : QaseReporter) (rs : List TestResultType) : QaseReporter :=
  if q.disabled then q
  else if q.useFallback then
    { q with fallbackReporter := q.fallbackReporter.map fun _ => ⟨rs⟩ }
  else
    { q with upstreamReporter := q.upstreamReporter.map fun _ => ⟨rs⟩ }

/-- isCaptureLogs, lines 411-413. -/
def isCaptureLogs (q : QaseReporter) : Bool := q.captureLogs.getD false

/-- sendResults, lines 252-280. uOk and fOk are the outcomes of the
upstream and fallback sendResults calls; an optional-chained call on an
absent reporter performs no invocation and cannot throw. -/
def sendResults (uOk fOk : Bool) (q : QaseReporter) (st : Store) :
    QaseReporter × Store × List Ev :=
  if q.disabled then (q, st, [])
  else
    match q.upstreamReporter with
    | none => (q, st, [])
    | some u =>
      if uOk then (q, st, [.call .upstream .sendResults true])
      else
        let ev0 : List Ev := [.call .upstream .sendResults false]
        match q.fallbackReporter with
        | none =>
            (q, StateManager.setMode (some .off) st,
             ev0 ++ [.storeSetMode (some .off)])
        | some fb =>
            let qev :=
              if !q.useFallback then
                ({ q with fallbackReporter := some ⟨u.results⟩, useFallback := true },
                 [Ev.call .fallback .setTestResults true])
              else (q, [])
            if fOk then
              (qev.1, StateManager.setMode q.options.fallback st,
               ev0 ++ qev.2 ++ [.call .fallback .sendResults true,
                                .storeSetMode q.options.fallback])
            else
              (qev.1, StateManager.setMode (some .off) st,
               ev0 ++ qev.2 ++ [.call .fallback .sendResults false,
                                .storeSetMode (some .off)])

/-- complete, lines 282-308: clears the persisted run state first, then
best-effort completion with the usual migrate-and-fall-back shape; both
failure branches only log. -/
def complete (uOk fOk : Bool) (q : QaseReporter) (st : Store) :
    QaseReporter × Store × List Ev :=
  let st1 := StateManager.clearState st
  if q.disabled then (q, st1, [.storeClear])
  else
    match q.upstreamReporter with
    | none => (q, st1, [.storeClear])
    | some u =>
      if uOk then (q, st1, [.storeClear, .call .upstream .complete true])
      else
        match q.fallbackReporter with
        | none => (q, st1, [.storeClear, .call .upstream .complete false])
        | some fb =>
          let qev :=
            if !q.useFallback then
              ({ q with fallbackReporter := some ⟨u.results⟩, useFallback := true },
               [Ev.call .fallback .setTestResults true])
            else (q, [])
          (qev.1, st1,
           [Ev.storeClear, Ev.call .upstream .complete false] ++ qev.2
             ++ [.call .fallback .complete fOk])

/-- startTestRun, lines 313-339: stores the upstream pending operation when
it starts; on a synchronous upstream failure the assignment does not
happen, so the handle keeps its previous value while the fallback is tried
and the mode decision is persisted. -/
def startTestRun (uOk fOk : Bool) (q : QaseReporter) (st : Store) :
    QaseReporter × Store × List Ev :=
  if q.disabled then (q, st, [])
  else
    match q.upstreamReporter with
    | none => ({ q with startTestRunOperation := none }, st, [])
    | some u =>
      if uOk then
        ({ q with startTestRunOperation := some .upstream }, st,
         [.call .upstream .startTestRun true])
      else
        match q.fallbackReporter with
        | none =>
            ({ q with disabled := true }, StateManager.setMode (some .off) st,
             [.call .upstream .startTestRun false, .storeSetMode (some .off)])
        | some fb =>
          if fOk then
            ({ q with startTestRunOperation := some .fallback },
             StateManager.setMode q.options.fallback st,
             [.call .upstream .startTestRun false,
              .call .fallback .startTestRun true,
              .storeSetMode q.options.fallback])
          else
            ({ q with disabled := true }, StateManager.setMode (some .off) st,
             [.call .upstream .startTestRun false,
              .call .fallback .startTestRun false,
              .storeSetMode (some .off)])

/-- getInstance, lines 350-356: process-wide memoization through the static
instance field, modelled as explicit optional state threaded by the caller. -/
def getInstance (opts : OptionsType) (uOk fOk : Bool)
    (inst : Option QaseReporter) (st : Store) :
    QaseReporter × Option QaseReporter × Store :=
  match inst with
  | some i => (i, some i, st)
  | none =>
      let qs := construct opts uOk fOk st
      (qs.1, some qs.1, qs.2)

/-- addTestResultToFallback, lines 397-406: optional-chained delivery to the
fallback, persisting the fallback selector on success and disabling plus
persisting off on failure. -/
def addTestResultToFallback (fOk : Bool) (r : TestResultType)
    (q : QaseReporter) (st : Store) : QaseReporter × Store × List Ev :=
  match q.fallbackReporter with
  | none =>
      (q, StateManager.setMode q.options.fallback st,
       [.storeSetMode q.options.fallback])
  | some fb =>
    if fOk then
      ({ q with fallbackReporter := some ⟨fb.results ++ [r]⟩ },
       StateManager.setMode q.options.fallback st,
       [.call .fallback .addTestResult true, .storeSetMode q.options.fallback])
    else
      ({ q with disabled := true }, StateManager.setMode (some .off) st,
       [.call .fallback .addTestResult false, .storeSetMode (some .off)])

/-- addTestResult, lines 361-391: waits for the pending start-of-run handle,
logs the result line, then delivers with the migrate-and-fall-back shape;
a successful backend addTestResult appends to that backend's buffer. -/
def addTestResult (uOk fOk : Bool) (r : TestResultType)
    (q : QaseReporter) (st : Store) : QaseReporter × Store × List Ev :=
  if q.disabled then (q, st, [])
  else
    let ev0 : List Ev := [.awaitOp q.startTestRunOperation, .logResult r]
    if q.useFallback then
      let out := addTestResultToFallback fOk r q st
      (out.1, out.2.1, ev0 ++ out.2.2)
    else
      match q.upstreamReporter with
      | none => (q, st, ev0)
      | some u =>
        if uOk then
          ({ q with upstreamReporter := some ⟨u.results ++ [r]⟩ }, st,
           ev0 ++ [.call .upstream .addTestResult true])
        else
          match q.fallbackReporter with
          | none =>
              ({ q with disabled := true },
               StateManager.setMode (some .off) st,
               ev0 ++ [.call .upstream .addTestResult false,
                       .storeSetMode (some .off)])
          | some fb =>
            let q1 := { q with fallbackReporter := some ⟨u.results⟩,
                               useFallback := true }
            let out := addTestResultToFallback fOk r q1 st
            (out.1, out.2.1,
             ev0 ++ [Ev.call .upstream .addTestResult false,
                     Ev.call .fallback .setTestResults true] ++ out.2.2)

/-- publishFallback, lines 454-463: optional-chained fallback publish; on
success the fallback selector is persisted, on failure off is persisted and
the facade is disabled. -/
def publishFallback (ok : Bool) (q : QaseReporter) (st : Store) :
    QaseReporter × Store × List Ev :=
  match q.fallbackReporter with
  | none =>
      (q, StateManager.setMode q.options.fallback st,
       [.storeSetMode q.options.fallback])
  | some fb =>
    if ok then
      (q, StateManager.setMode q.options.fallback st,
       [.call .fallback .publish true, .storeSetMode q.options.fallback])
    else
      ({ q with disabled := true }, StateManager.setMode (some .off) st,
       [.call .fallback .publish false, .storeSetMode (some .off)])

/-- publish, lines 418-449: awaits the pending start-of-run handle; when
already in fallback mode it publishes to the fallback and then still falls
through to the upstream attempt; the no-fallback failure branch returns
before the trailing clearState, which every other path reaches. f1Ok, uOk
and f2Ok are the outcomes of the first fallback publish, the upstream
publish and the second fallback publish. -/
def publish (f1Ok uOk f2Ok : Bool) (q : QaseReporter) (st : Store) :
    QaseReporter × Store × List Ev :=
  if q.disabled then (q, StateManager.clearState st, [.storeClear])
  else
    let ev0 : List Ev := [.awaitOp q.startTestRunOperation]
    let first :=
      if q.useFallback then
        let out := publishFallback f1Ok q st
        (out.1, out.2.1, ev0 ++ out.2.2)
      else (q, st, ev0)
    let q1 := first.1
    let st1 := first.2.1
    let ev1 := first.2.2
    match q1.upstreamReporter with
    | none => (q1, StateManager.clearState st1, ev1 ++ [.storeClear])
    | some u =>
      if uOk then
        (q1, StateManager.clearState st1,
         ev1 ++ [.call .upstream .publish true, .storeClear])
      else
        match q1.fallbackReporter with
        | none =>
            ({ q1 with disabled := true },
             StateManager.setMode (some .off) st1,
             ev1 ++ [.call .upstream .publish false, .storeSetMode (some .off)])
        | some fb =>
          let qev :=
            if !q1.useFallback then
              ({ q1 with fallbackReporter := some ⟨u.results⟩,
                         useFallback := true },
               [Ev.call .fallback .setTestResults true])
            else (q1, [])
          let out := publishFallback f2Ok qev.1 st1
          (out.1, StateManager.clearState out.2.1,
           ev1 ++ [Ev.call .upstream .publish false] ++ qev.2 ++ out.2.2
             ++ [.storeClear])

end QaseReporter

/-- One facade call together with its backend-outcome oracle. -/
inductive Act
  | start (uOk fOk : Bool)
  | add (uOk fOk : Bool) (r : TestResultType)
  | send (uOk fOk : Bool)
  | pub (f1Ok uOk f2Ok : Bool)
  | compl (uOk fOk : Bool)
  | setRes (rs : List TestResultType)
deriving Repr

/-- Dispatch one facade call. -/
def stepCall (a : Act) (q : QaseReporter) (st : Store) :
    QaseReporter × Store × List Ev :=
  match a with
  | .start uOk fOk => QaseReporter.startTestRun uOk fOk q st
  | .add uOk fOk r => QaseReporter.addTestResult uOk fOk r q st
  | .send uOk fOk => QaseReporter.sendResults uOk fOk q st
  | .pub a b c => QaseReporter.publish a b c q st
  | .compl uOk fOk => QaseReporter.complete uOk fOk q st
  | .setRes rs => (QaseReporter.setTestResults q rs, st, [])

/-- Run a sequence of facade calls, concatenating their event traces. -/
def runCalls : List Act → QaseReporter → Store → QaseReporter × Store × List Ev
  | [], q, st => (q, st, [])
  | a :: rest, q, st =>
      let out := stepCall a q st
      let out2 := runCalls rest out.1 out.2.1
      (out2.1, out2.2.1, out.2.2 ++ out2.2.2)

/-- Claim C3 discipline for sendResults traces, following the spec words:
scanning the events, every fallback sendResults invocation must come after
an already-failed upstream sendResults invocation, and the fallback
sendResults may be invoked at most once. -/
def primaryFirstSendAux : List Ev → Bool → Bool → Bool
  | [], _, _ => true
  | .call .upstream .sendResults ok :: rest, seenFail, used =>
      primaryFirstSendAux rest (seenFail || !ok) used
  | .call .fallback .sendResults _ :: rest, seenFail, used =>
      seenFail && !used && primaryFirstSendAux rest seenFail true
  | _ :: rest, seenFail, used => primaryFirstSendAux rest seenFail used

/-- Claim C3 discipline for sendResults traces, entry point. -/
def primaryFirstSend (evs : List Ev) : Bool :=
  primaryFirstSendAux evs false false

/-- Claim C3 discipline for publish traces, following the spec words:
scanning the events, every fallback publish invocation must come after an
already-failed upstream publish invocation, and the fallback publish may be
invoked at most once. -/
def primaryFirstPublishAux : List Ev → Bool → Bool → Bool
  | [], _, _ => true
  | .call .upstream .publish ok :: rest, seenFail, used =>
      primaryFirstPublishAux rest (seenFail || !ok) used
  | .call .fallback .publish _ :: rest, seenFail, used =>
      seenFail && !used && primaryFirstPublishAux rest seenFail true
  | _ :: rest, seenFail, used => primaryFirstPublishAux rest seenFail used

/-- Claim C3 discipline for publish traces, entry point. -/
def primaryFirstPublish (evs : List Ev) : Bool :=
  primaryFirstPublishAux evs false false

/-- Claim C1: the claim states that a primary construction failure for an
ordinary (non-disabled) reason sets useFallback when a fallback mode is
configured, and disables only when none is. The source tests the inverted
condition: with mode testops failing construction and fallback report
configured, the constructor disables the facade and returns early, building
no fallback reporter and stamping no run-state record. -/
theorem C1_construction_failure_with_configured_fallback_disables :
    (QaseReporter.construct ⟨some .testops, some .report, none⟩ false true ⟨none⟩).1.disabled
        = true ∧
    (QaseReporter.construct ⟨some .testops, some .report, none⟩ false true ⟨none⟩).1.useFallback
        = false ∧
    (QaseReporter.construct ⟨some .testops, some .report, none⟩ false true ⟨none⟩).1.fallbackReporter
        = none ∧
    (QaseReporter.construct ⟨some .testops, some .report, none⟩ false true ⟨none⟩).2.record
        = none := by
  decide

/-- Claim C2, evaluated at the failing input: a facade with an upstream
reporter, no fallback reporter and a present run-state record, whose
upstream publish fails, returns through the early-return branch of publish
without reaching the trailing clearState: the record survives, so an
exists() query on the store still answers true after publish returns. -/
theorem C2_publish_leaves_record_on_upstream_failure_without_fallback :
    StateManager.isStateExists
      (QaseReporter.publish true false true
        ⟨some ⟨[]⟩, none, none, false, false, none, ⟨some .testops, none, none⟩⟩
        ⟨some ⟨none, some .testops, none⟩⟩).2.1 = true := by
  decide

/-- Claim C3, counterexample: a publish call entered in fallback mode (both
reporters present, useFallback true) with a healthy fallback and a failing
upstream invokes the fallback publish before the upstream attempt and
invokes it a second time afterwards, so the claimed
primary-first-then-secondary-at-most-once discipline is violated. -/
theorem C3_counterexample_publish_fallback_first_and_twice :
    primaryFirstPublish
      (QaseReporter.publish true false true
        ⟨some ⟨[]⟩, some ⟨[]⟩, none, false, true, some .upstream,
         ⟨some .testops, some .report, none⟩⟩
        ⟨some ⟨none, some .report, some true⟩⟩).2.2 = false ∧
    ((QaseReporter.publish true false true
        ⟨some ⟨[]⟩, some ⟨[]⟩, none, false, true, some .upstream,
         ⟨some .testops, some .report, none⟩⟩
        ⟨some ⟨none, some .report, some true⟩⟩).2.2.filter
      (fun e => decide (e = Ev.call .fallback .publish true))).length = 2 := by
  decide

/-- Claim C3, amended: every sendResults call obeys the discipline that the
fallback sendResults is invoked at most once and only after an already
failed upstream attempt, and the same holds for every publish call that is
entered with useFallback still false; a publish call entered with
useFallback true instead publishes to the fallback first and may publish to
it twice. -/
theorem C3_primary_first_discipline
    (uOk fOk f1 f2 : Bool) (q : QaseReporter) (st : Store) :
    primaryFirstSend (QaseReporter.sendResults uOk fOk q st).2.2 = true ∧
    (q.useFallback = false →
      primaryFirstPublish (QaseReporter.publish f1 uOk f2 q st).2.2 = true) := by
  rcases q with ⟨ur, fr, cl, d, uf, op, o⟩
  constructor
  · cases d <;> cases ur <;> cases uOk <;> cases fr <;> cases fOk <;> cases uf <;> rfl
  · intro huf
    have huf2 : uf = false := huf
    subst huf2
    cases d <;> cases ur <;> cases uOk <;> cases fr <;> cases f2 <;> rfl

/-- Claim C3, witness for the amended theorem at a concrete input: a
publish call entered with useFallback false, whose upstream publish fails
and whose fallback publish succeeds, obeys the discipline. -/
theorem C3_primary_first_witness :
    primaryFirstPublish
      (QaseReporter.publish true false true
        ⟨some ⟨[]⟩, some ⟨[]⟩, none, false, false, none,
         ⟨some .testops, some .report, none⟩⟩ ⟨none⟩).2.2 = true :=
  (C3_primary_first_discipline false true true true
    ⟨some ⟨[]⟩, some ⟨[]⟩, none, false, false, none,
     ⟨some .testops, some .report, none⟩⟩ ⟨none⟩).2 rfl

/-- Claim C9: getInstance is a process-wide memoizing singleton: the first
call constructs the instance from its own options and stores it, and a
second call with arbitrary other options returns the identical instance,
namely the one built by the constructor from the first call's options,
leaving the cached instance and the store untouched. -/
theorem C9_getInstance_singleton
    (oA oB : OptionsType) (a b c d : Bool) (st : Store) :
    (QaseReporter.getInstance oB c d
        (QaseReporter.getInstance oA a b none st).2.1
        (QaseReporter.getInstance oA a b none st).2.2).1
      = (QaseReporter.construct oA a b st).1 ∧
    (QaseReporter.getInstance oB c d
        (QaseReporter.getInstance oA a b none st).2.1
        (QaseReporter.getInstance oA a b none st).2.2).2.1
      = some (QaseReporter.construct oA a b st).1 ∧
    (QaseReporter.getInstance oB c d
        (QaseReporter.getInstance oA a b none st).2.1
        (QaseReporter.getInstance oA a b none st).2.2).2.2
      = (QaseReporter.getInstance oA a b none st).2.2 ∧
    (QaseReporter.getInstance oA a b none st).1
      = (QaseReporter.construct oA a b st).1 :=
  ⟨rfl, rfl, rfl, rfl⟩

/-- Claim C10: when the facade is not disabled but the upstream reporter is
absent, startTestRun performs no backend invocation at all: the
optional-chained upstream call is skipped without throwing, so the catch
branch (and with it any fallback start or store write) never runs, and the
pending start-of-run handle is assigned undefined. -/
theorem C10_startTestRun_without_upstream
    (uOk fOk : Bool) (q : QaseReporter) (st : Store)
    (hd : q.disabled = false) (hu : q.upstreamReporter = none) :
    QaseReporter.startTestRun uOk fOk q st
      = ({ q with startTestRunOperation := none }, st, ([] : List Ev)) := by
  rcases q with ⟨ur, fr, cl, d, uf, op, o⟩
  have hd2 : d = false := hd
  have hu2 : ur = none := hu
  subst hd2
  subst hu2
  rfl

/-- Claim C10, witness at a concrete state with no upstream reporter. -/
theorem C10_startTestRun_without_upstream_witness :
    QaseReporter.startTestRun true true
        ⟨none, some ⟨[]⟩, none, false, true, some .fallback,
         ⟨some .testops, some .report, none⟩⟩ ⟨none⟩
      = (⟨none, some ⟨[]⟩, none, false, true, none,
          ⟨some .testops, some .report, none⟩⟩, ⟨none⟩, ([] : List Ev)) :=
  C10_startTestRun_without_upstream true true
    ⟨none, some ⟨[]⟩, none, false, true, some .fallback,
     ⟨some .testops, some .report, none⟩⟩ ⟨none⟩ rfl rfl

/-- Claim C8: every addTestResult call that is not a no-op first awaits the
pending start-of-run operation recorded by the facade, before any backend
sees the result: the await event is the very first event of the call. -/
theorem C8_addTestResult_awaits_pending_start
    (uOk fOk : Bool) (r : TestResultType) (q : QaseReporter) (st : Store)
    (hd : q.disabled = false) :
    ((QaseReporter.addTestResult uOk fOk r q st).2.2).head?
      = some (Ev.awaitOp q.startTestRunOperation) := by
  rcases q with ⟨ur, fr, cl, d, uf, op, o⟩
  have hd2 : d = false := hd
  subst hd2
  cases uf <;> cases ur <;> cases uOk <;> cases fr <;> cases fOk <;> rfl

/-- Claim C8, witness at a concrete enabled facade with a pending upstream
start-of-run operation. -/
theorem C8_addTestResult_awaits_witness :
    ((QaseReporter.addTestResult true true ⟨"T1", TestStatusEnum.passed⟩
        ⟨some ⟨[]⟩, none, none, false, false, some .upstream,
         ⟨some .testops, none, none⟩⟩ ⟨none⟩).2.2).head?
      = some (Ev.awaitOp (some .upstream)) :=
  C8_addTestResult_awaits_pending_start true true ⟨"T1", TestStatusEnum.passed⟩
    ⟨some ⟨[]⟩, none, none, false, false, some .upstream,
     ⟨some .testops, none, none⟩⟩ ⟨none⟩ rfl

/-- Claim C7: complete clears the persisted run state as its very first
action, before any backend call; afterwards no further store write happens
on any path, completion failures (on either backend) are only logged, the
disabled flag is left exactly as it was, and the record is gone when
complete returns. -/
theorem C7_complete_clears_first_never_disables
    (uOk fOk : Bool) (q : QaseReporter) (st : Store) :
    ((QaseReporter.complete uOk fOk q st).2.2).head? = some Ev.storeClear ∧
    ((QaseReporter.complete uOk fOk q st).2.2).tail.all
      (fun e => !e.isStoreWrite) = true ∧
    (QaseReporter.complete uOk fOk q st).1.disabled = q.disabled ∧
    (QaseReporter.complete uOk fOk q st).2.1.record = none := by
  rcases q with ⟨ur, fr, cl, d, uf, op, o⟩
  cases d <;> cases ur <;> cases uOk <;> cases fr <;> cases fOk <;> cases uf <;>
    exact ⟨rfl, rfl, rfl, rfl⟩

/-- Claim C5: when sendResults fails on the upstream and either no fallback
reporter exists or the fallback fails as well, the facade stays enabled
(disabled remains false) while the persisted record is forced to Mode off. -/
theorem C5_sendResults_double_failure_keeps_enabled
    (fOk : Bool) (q : QaseReporter) (st : Store) (u : Reporter)
    (hd : q.disabled = false) (hu : q.upstreamReporter = some u)
    (hf : q.fallbackReporter = none ∨ fOk = false) :
    (QaseReporter.sendResults false fOk q st).1.disabled = false ∧
    ∃ s, (QaseReporter.sendResults false fOk q st).2.1.record = some s ∧
         s.Mode = some ModeEnum.off := by
  rcases q with ⟨ur, fr, cl, d, uf, op, o⟩
  have hd2 : d = false := hd
  have hu2 : ur = some u := hu
  subst hd2
  subst hu2
  rcases hf with hf | hf
  · have hf2 : fr = none := hf
    subst hf2
    rcases st with ⟨_ | s0⟩
    · exact ⟨rfl, _, rfl, rfl⟩
    · exact ⟨rfl, _, rfl, rfl⟩
  · have hf2 : fOk = false := hf
    subst hf2
    cases fr <;> cases uf <;> rcases st with ⟨_ | s0⟩ <;> exact ⟨rfl, _, rfl, rfl⟩

/-- Claim C5, witness: upstream present and failing, no fallback reporter. -/
theorem C5_sendResults_double_failure_witness :
    (QaseReporter.sendResults false true
        ⟨some ⟨[]⟩, none, none, false, false, none,
         ⟨some .testops, none, none⟩⟩ ⟨none⟩).1.disabled = false ∧
    ∃ s, (QaseReporter.sendResults false true
        ⟨some ⟨[]⟩, none, none, false, false, none,
         ⟨some .testops, none, none⟩⟩ ⟨none⟩).2.1.record = some s ∧
         s.Mode = some ModeEnum.off :=
  C5_sendResults_double_failure_keeps_enabled true
    ⟨some ⟨[]⟩, none, none, false, false, none,
     ⟨some .testops, none, none⟩⟩ ⟨none⟩ ⟨[]⟩ rfl rfl (Or.inl rfl)

/-- Claim C4: when addTestResult fails on the upstream and a fallback
reporter exists, the whole upstream buffer is copied into the fallback via
setTestResults before the failing result is delivered there (visible both
in the event order and in the resulting fallback buffer, which holds the
migrated results followed by the new one); useFallback becomes true while
the facade stays enabled; on fallback success the persisted Mode becomes
the configured fallback selector; and a subsequent addTestResult issues no
upstream invocation, delivering directly to the fallback. -/
theorem C4_addTestResult_failover
    (q : QaseReporter) (st : Store) (r r2 : TestResultType)
    (u fb : Reporter) (fm : ModeEnum) (a2 b2 : Bool) (st2 : Store)
    (hd : q.disabled = false) (hf : q.useFallback = false)
    (hu : q.upstreamReporter = some u) (hb : q.fallbackReporter = some fb)
    (hm : q.options.fallback = some fm) :
    (QaseReporter.addTestResult false true r q st).2.2
      = [Ev.awaitOp q.startTestRunOperation, Ev.logResult r,
         Ev.call .upstream .addTestResult false,
         Ev.call .fallback .setTestResults true,
         Ev.call .fallback .addTestResult true,
         Ev.storeSetMode (some fm)] ∧
    (QaseReporter.addTestResult false true r q st).1.useFallback = true ∧
    (QaseReporter.addTestResult false true r q st).1.disabled = false ∧
    (QaseReporter.addTestResult false true r q st).1.fallbackReporter
      = some ⟨u.results ++ [r]⟩ ∧
    (∃ s, (QaseReporter.addTestResult false true r q st).2.1.record = some s ∧
          s.Mode = some fm) ∧
    (QaseReporter.addTestResult a2 b2 r2
        (QaseReporter.addTestResult false true r q st).1
        (QaseReporter.addTestResult false true r q st).2.1).2.2.all
      (fun e => !(e.isCallTo .upstream)) = true ∧
    (Ev.call .fallback .addTestResult b2) ∈
      (QaseReporter.addTestResult a2 b2 r2
        (QaseReporter.addTestResult false true r q st).1
        (QaseReporter.addTestResult false true r q st).2.1).2.2 := by
  rcases q with ⟨ur, fr, cl, d, uf, op, ⟨m0, fopt, c0⟩⟩
  have hd2 : d = false := hd
  have hf2 : uf = false := hf
  have hu2 : ur = some u := hu
  have hb2 : fr = some fb := hb
  have hm2 : fopt = some fm := hm
  subst hd2
  subst hf2
  subst hu2
  subst hb2
  subst hm2
  cases b2
  · refine ⟨rfl, rfl, rfl, rfl, ?_, rfl, ?_⟩
    · rcases st with ⟨_ | s0⟩
      · exact ⟨_, rfl, rfl⟩
      · exact ⟨_, rfl, rfl⟩
    · simp [QaseReporter.addTestResult, QaseReporter.addTestResultToFallback]
  · refine ⟨rfl, rfl, rfl, rfl, ?_, rfl, ?_⟩
    · rcases st with ⟨_ | s0⟩
      · exact ⟨_, rfl, rfl⟩
      · exact ⟨_, rfl, rfl⟩
    · simp [QaseReporter.addTestResult, QaseReporter.addTestResultToFallback]

/-- Claim C4, witness at a healthy concrete fallback: the failover sets
useFallback and leaves the failing result in the fallback buffer. -/
theorem C4_addTestResult_failover_witness :
    (QaseReporter.addTestResult false true ⟨"T1", TestStatusEnum.passed⟩
        ⟨some ⟨[]⟩, some ⟨[]⟩, none, false, false, none,
         ⟨some .testops, some .report, none⟩⟩ ⟨none⟩).1.useFallback = true ∧
    (QaseReporter.addTestResult false true ⟨"T1", TestStatusEnum.passed⟩
        ⟨some ⟨[]⟩, some ⟨[]⟩, none, false, false, none,
         ⟨some .testops, some .report, none⟩⟩ ⟨none⟩).1.fallbackReporter
      = some ⟨[⟨"T1", TestStatusEnum.passed⟩]⟩ :=
  ⟨(C4_addTestResult_failover
      ⟨some ⟨[]⟩, some ⟨[]⟩, none, false, false, none,
       ⟨some .testops, some .report, none⟩⟩ ⟨none⟩
      ⟨"T1", TestStatusEnum.passed⟩ ⟨"T2", TestStatusEnum.failed⟩
      ⟨[]⟩ ⟨[]⟩ .report true true ⟨none⟩ rfl rfl rfl rfl rfl).2.1,
   (C4_addTestResult_failover
      ⟨some ⟨[]⟩, some ⟨[]⟩, none, false, false, none,
       ⟨some .testops, some .report, none⟩⟩ ⟨none⟩
      ⟨"T1", TestStatusEnum.passed⟩ ⟨"T2", TestStatusEnum.failed⟩
      ⟨[]⟩ ⟨[]⟩ .report true true ⟨none⟩ rfl rfl rfl rfl rfl).2.2.2.1⟩

/-- Single-call inertia of a disabled facade: no facade call mutates the
facade state, and none of its events is a backend invocation. -/
theorem stepCall_of_disabled (a : Act) (q : QaseReporter) (st : Store)
    (hd : q.disabled = true) :
    (stepCall a q st).1 = q ∧
    (stepCall a q st).2.2.all (fun e => !e.isBackendCall) = true := by
  rcases q with ⟨ur, fr, cl, d, uf, op, o⟩
  cases d
  · exact Bool.noConfusion hd
  · cases a <;> exact ⟨rfl, rfl⟩

/-- Claim C6: once the disabled flag is true, the facade is permanently
inert: over any sequence of facade calls with any backend outcomes, no
backend operation is ever invoked, the facade state (and with it the result
list observed through getResults) never changes, and getResults stays the
empty list. -/
theorem C6_disabled_forever_inert
    (acts : List Act) (q : QaseReporter) (st : Store)
    (hd : q.disabled = true) :
    (runCalls acts q st).1 = q ∧
    (runCalls acts q st).2.2.all (fun e => !e.isBackendCall) = true ∧
    QaseReporter.getResults (runCalls acts q st).1 = [] := by
  induction acts generalizing q st with
  | nil =>
      refine ⟨rfl, rfl, ?_⟩
      show QaseReporter.getResults q = []
      simp [QaseReporter.getResults, hd]
  | cons a rest ih =>
      obtain ⟨h1, h2⟩ := stepCall_of_disabled a q st hd
      have hd2 : (stepCall a q st).1.disabled = true := by rw [h1]; exact hd
      obtain ⟨g1, g2, g3⟩ := ih (stepCall a q st).1 (stepCall a q st).2.1 hd2
      have e1 : (runCalls (a :: rest) q st).1
          = (runCalls rest (stepCall a q st).1 (stepCall a q st).2.1).1 := rfl
      have e3 : (runCalls (a :: rest) q st).2.2
          = (stepCall a q st).2.2
            ++ (runCalls rest (stepCall a q st).1 (stepCall a q st).2.1).2.2 := rfl
      refine ⟨e1.trans (g1.trans h1), ?_, ?_⟩
      · rw [e3, List.all_append, h2, g2]
        rfl
      · rw [e1]
        exact g3

/-- Claim C6, witness: after a startTestRun in which both backends fail,
the facade is disabled, and a following addTestResult plus sendResults
issue no backend invocation while getResults stays empty. -/
theorem C6_disabled_forever_inert_witness :
    (runCalls [Act.add true true ⟨"T1", TestStatusEnum.passed⟩, Act.send true true]
        (QaseReporter.startTestRun false false
          ⟨some ⟨[]⟩, some ⟨[]⟩, none, false, false, none,
           ⟨some .testops, some .report, none⟩⟩ ⟨none⟩).1
        (QaseReporter.startTestRun false false
          ⟨some ⟨[]⟩, some ⟨[]⟩, none, false, false, none,
           ⟨some .testops, some .report, none⟩⟩ ⟨none⟩).2.1).1
      = (QaseReporter.startTestRun false false
          ⟨some ⟨[]⟩, some ⟨[]⟩, none, false, false, none,
           ⟨some .testops, some .report, none⟩⟩ ⟨none⟩).1 ∧
    (runCalls [Act.add true true ⟨"T1", TestStatusEnum.passed⟩, Act.send true true]
        (QaseReporter.startTestRun false false
          ⟨some ⟨[]⟩, some ⟨[]⟩, none, false, false, none,
           ⟨some .testops, some .report, none⟩⟩ ⟨none⟩).1
        (QaseReporter.startTestRun false false
          ⟨some ⟨[]⟩, some ⟨[]⟩, none, false, false, none,
           ⟨some .testops, some .report, none⟩⟩ ⟨none⟩).2.1).2.2.all
      (fun e => !e.isBackendCall) = true ∧
    QaseReporter.getResults
      (runCalls [Act.add true true ⟨"T1", TestStatusEnum.passed⟩, Act.send true true]
        (QaseReporter.startTestRun false false
          ⟨some ⟨[]⟩, some ⟨[]⟩, none, false, false, none,
           ⟨some .testops, some .report, none⟩⟩ ⟨none⟩).1
        (QaseReporter.startTestRun false false
          ⟨some ⟨[]⟩, some ⟨[]⟩, none, false, false, none,
           ⟨some .testops, some .report, none⟩⟩ ⟨none⟩).2.1).1 = [] :=
  C6_disabled_forever_inert
    [Act.add true true ⟨"T1", TestStatusEnum.passed⟩, Act.send true true]
    (QaseReporter.startTestRun false false
      ⟨some ⟨[]⟩, some ⟨[]⟩, none, false, false, none,
       ⟨some .testops, some .report, none⟩⟩ ⟨none⟩).1
    (QaseReporter.startTestRun false false
      ⟨some ⟨[]⟩, some ⟨[]⟩, none, false, false, none,
       ⟨some .testops, some .report, none⟩⟩ ⟨none⟩).2.1
    (by decide)

end QaseJs
